import Mathlib

/-!
Verification of the personal-planner backend (`app.py` together with the
SQLAlchemy models in `models.py`).

Shallow embedding conventions:

* Calendar dates and offset-aware instants are modelled as integers;
  only addition of day-offsets and ordering are ever used by the
  program.  An instant is identified with its parsed value, so
  `parse_datetime` (an external collaborator per the design) acts as the
  identity on already-parsed payload instants and maps empty/null input to
  `none`.
* A JSON payload is modelled per-endpoint as a structure whose fields have
  type `Option (Option α)`: `none` means the key is absent from the payload,
  `some none` means the key is present with an explicit `null`, and
  `some (some v)` means the key is present with value `v`.  Python's
  `dict.get(key, default)` is `dget`.
* Python truthiness on optional strings (`None` and `""` are falsy) is
  `truthyOpt`.
* Date strings are modelled by `DateStr`, distinguishing the empty string,
  a parseable string denoting date `d`, and a non-empty unparseable string
  (on which `parse_date`'s fallback `strptime` raises `ValueError`).
* The record store is a list of rows plus an id counter and a clock; an
  insert (the `db.session.add`/`flush` pair) assigns the next identifier
  and the current clock tick as `created_at`, mirroring the autoincrement
  primary key and the `default=lambda: datetime.now(timezone.utc)` column
  default which is re-evaluated for every inserted row.
* Fallible endpoints return `Except String α`; an error result models a
  rejected request (400/404/500), in which case no store is returned and
  hence nothing is persisted — faithful to the source, where every error
  return happens before `db.session.commit()`.
-/

namespace Planner


/-- A date string as seen by `parse_date`: empty, parseable (denoting the
date `d`), or non-empty unparseable (making `strptime` raise). -/
inductive DateStr where
  | emptyStr : DateStr
  | valid : Int → DateStr
  | invalid : DateStr
deriving DecidableEq

/-- Python `dict.get(key, default)` over a payload field:
`none` = key absent (yield the default), `some v` = key present with value
`v` (which may itself be the explicit `null`, i.e. `none`). -/
def dget {α : Type} (field : Option (Option α)) (dflt : Option α) : Option α :=
  match field with
  | none => dflt
  | some v => v

/-- Python truthiness of an optional string: `None` and `""` are falsy. -/
def truthyOpt : Option String → Bool
  | none => false
  | some s => s != ""

/-- `parse_date` from `app.py`: falsy input yields `None`; a parseable
string yields its date; a non-empty unparseable string raises `ValueError`
(the uncaught `strptime` fallback), modelled as an `Except.error`. -/
def parse_date : Option DateStr → Except String (Option Int)
  | none => .ok none
  | some .emptyStr => .ok none
  | some (.valid d) => .ok (some d)
  | some .invalid => .error "ValueError: unparseable date string"

/-- `parse_datetime` from `app.py`: falsy input yields `None`, otherwise
the parsed instant.  Instants are identified with their parsed values, so
this is the identity on the modelled payload domain. -/
def parse_datetime (datetime_str : Option Int) : Option Int :=
  match datetime_str with
  | none => none
  | some v => some v

/-- The `Task` model from `models.py`.  Column defaults (`is_completed` =
false, `time_tracked_seconds` = 0) are applied at row construction by the
endpoints; `id` and `created_at` are assigned by the store on insert. -/
structure Task where
  id : Nat
  title : Option String
  description : Option String
  is_recurring : Bool
  is_completed : Option Bool
  due_date : Option Int
  start_time : Option Int
  end_time : Option Int
  time_tracked_seconds : Option Int
  created_at : Int
  recurrence_type : Option String
  recurrence_group_id : Option String
deriving DecidableEq

/-- The task table: rows plus the autoincrement counter and the clock used
for the `created_at` column default. -/
structure Store where
  tasks : List Task
  nextId : Nat
  clock : Int
deriving DecidableEq

/-- `db.session.add` + `flush` for a task row: assign the next identifier
and a fresh creation instant, append the row. -/
def Store.insertRow (st : Store) (t : Task) : Store × Task :=
  let t' := { t with id := st.nextId, created_at := st.clock }
  ({ tasks := st.tasks ++ [t'], nextId := st.nextId + 1, clock := st.clock + 1 }, t')

/-- JSON payload of `POST /tasks` (`create_task`). -/
structure TaskPayload where
  title : Option (Option String)
  description : Option (Option String)
  is_recurring : Option (Option Bool)
  recurrence_type : Option (Option String)
  due_date : Option (Option DateStr)
  start_time : Option (Option Int)
  end_time : Option (Option Int)
deriving DecidableEq

/-- The `recurrence_periods` table of `_create_recurring_tasks`:
cadence ↦ (period in days, instance count). -/
def recurrence_periods (cadence : String) : Option (Int × Nat) :=
  if cadence = "daily" then some (1, 90)
  else if cadence = "weekly" then some (7, 12)
  else none

/-- A sibling row built by `_create_recurring_tasks` from the template's
`to_dict()` with `id`, `due_date`, `is_completed`, `time_tracked_seconds`
and `created_at` popped: those popped fields take the column defaults
(resp. the supplied new due date), everything else is copied. -/
def sibling_row (tmpl : Task) (new_due : Int) : Task :=
  { id := 0
    title := tmpl.title
    description := tmpl.description
    is_recurring := tmpl.is_recurring
    is_completed := some false
    due_date := some new_due
    start_time := tmpl.start_time
    end_time := tmpl.end_time
    time_tracked_seconds := some 0
    created_at := 0
    recurrence_type := tmpl.recurrence_type
    recurrence_group_id := tmpl.recurrence_group_id }

/-- `_create_recurring_tasks` from `app.py`: no-op unless the template is
recurring with a truthy cadence found in `recurrence_periods`; otherwise
insert one sibling per `i = 1..count` with due date `due + delta * i`.
(The `due_date = none` branch is unreachable from `create_task`, which
validates the due date; the Python would raise a `TypeError` there.) -/
def create_recurring_tasks (st : Store) (original_task : Task) : Store :=
  if original_task.is_recurring = false ∨ truthyOpt original_task.recurrence_type = false then
    st
  else
    match recurrence_periods (original_task.recurrence_type.getD "") with
    | none => st
    | some (delta, count) =>
      match original_task.due_date with
      | none => st
      | some d =>
        (List.range count).foldl
          (fun s (i : Nat) =>
            (s.insertRow (sibling_row original_task (d + delta * ((i : Int) + 1)))).1)
          st

/-- `POST /tasks` (`create_task` from `app.py`).  `gid` is the
`str(uuid.uuid4())` group identity drawn when the request is recurring. -/
def create_task (st : Store) (data : TaskPayload) (gid : String) :
    Except String (Store × Task) :=
  match parse_date (dget data.due_date none) with
  | .error e => .error e
  | .ok due_date =>
    if truthyOpt (dget data.title none) = false ∨ due_date = none then
      .error "Title and due_date are required"
    else
      let is_recurring := (dget data.is_recurring (some false)).getD false
      let recurrence_group_id := if is_recurring then some gid else none
      let row : Task :=
        { id := 0
          title := dget data.title none
          description := dget data.description none
          is_recurring := is_recurring
          is_completed := some false
          due_date := due_date
          start_time := parse_datetime (dget data.start_time none)
          end_time := parse_datetime (dget data.end_time none)
          time_tracked_seconds := some 0
          created_at := 0
          recurrence_type := dget data.recurrence_type none
          recurrence_group_id := recurrence_group_id }
      let flushed := st.insertRow row
      .ok (create_recurring_tasks flushed.1 flushed.2, flushed.2)

/-- JSON payload of `PUT /tasks/<id>` (`update_task`). -/
structure TaskUpdatePayload where
  title : Option (Option String)
  description : Option (Option String)
  is_completed : Option (Option Bool)
  time_tracked_seconds : Option (Option Int)
deriving DecidableEq

/-- `PUT /tasks/<id>` (`update_task` from `app.py`): look the task up by
id (404 if absent), rebind exactly the four `data.get`-resolved fields,
then `db.session.commit()`.  `models.py` declares `Task.title`
`nullable=False`, so a commit that would store a null title raises
`IntegrityError` (the request fails with a 500, the transaction is
rolled back and nothing is persisted); the other three mutable columns
are nullable and commit fine with null. -/
def update_task (st : Store) (task_id : Nat) (data : TaskUpdatePayload) :
    Except String (Store × Task) :=
  match st.tasks.find? (fun t => t.id == task_id) with
  | none => .error "404 Not Found"
  | some task =>
    let task' := { task with
      title := dget data.title task.title
      description := dget data.description task.description
      is_completed := dget data.is_completed task.is_completed
      time_tracked_seconds := dget data.time_tracked_seconds task.time_tracked_seconds }
    if task'.title = none then
      .error "IntegrityError: NOT NULL constraint failed: task.title"
    else
      .ok ({ st with tasks := st.tasks.map (fun u => if u.id == task_id then task' else u) },
           task')

/-- The branch condition of `delete_task`:
`apply_to == 'all_future' and task.recurrence_group_id` (Python
truthiness on the group identity). -/
def series_branch (task : Task) (apply_to : Option String) : Bool :=
  (apply_to == some "all_future") && truthyOpt task.recurrence_group_id

/-- SQL `>=` on nullable date columns: `NULL` compares as unknown, hence
the row is not selected. -/
def due_ge : Option Int → Option Int → Bool
  | some a, some b => decide (b ≤ a)
  | _, _ => false

/-- `DELETE /tasks/<id>` (`delete_task` from `app.py`): 404 if absent;
with `apply_to=all_future` and a truthy group identity, bulk-delete every
row of the same group whose due date is `>=` the target's; otherwise
delete the single row. -/
def delete_task (st : Store) (task_id : Nat) (apply_to : Option String) :
    Except String Store :=
  match st.tasks.find? (fun t => t.id == task_id) with
  | none => .error "404 Not Found"
  | some task =>
    if series_branch task apply_to then
      .ok { st with tasks :=
              st.tasks.filter (fun t =>
                !((t.recurrence_group_id == task.recurrence_group_id)
                  && due_ge t.due_date task.due_date)) }
    else
      .ok { st with tasks := st.tasks.filter (fun t => !(t.id == task_id)) }

/-- The `Event` model from `models.py`.  `start_time` is declared
`nullable=False` at the store; the endpoints never persist it as `None`. -/
structure Event where
  id : Nat
  title : Option String
  description : Option String
  start_time : Option Int
  end_time : Option Int
  created_at : Int
deriving DecidableEq

/-- The event table. -/
structure EventStore where
  events : List Event
  nextId : Nat
  clock : Int
deriving DecidableEq

/-- `db.session.add` + commit for an event row. -/
def EventStore.insertRow (st : EventStore) (e : Event) : EventStore × Event :=
  let e' := { e with id := st.nextId, created_at := st.clock }
  ({ events := st.events ++ [e'], nextId := st.nextId + 1, clock := st.clock + 1 }, e')

/-- JSON payload of the event endpoints. -/
structure EventPayload where
  title : Option (Option String)
  description : Option (Option String)
  start_time : Option (Option Int)
  end_time : Option (Option Int)
deriving DecidableEq

/-- `POST /events` (`create_event` from `app.py`). -/
def create_event (st : EventStore) (data : EventPayload) :
    Except String (EventStore × Event) :=
  if truthyOpt (dget data.title none) = false ∨ dget data.start_time none = none then
    .error "Title and start_time are required"
  else
    let row : Event :=
      { id := 0
        title := dget data.title none
        description := dget data.description none
        start_time := parse_datetime (dget data.start_time none)
        end_time := parse_datetime (dget data.end_time none)
        created_at := 0 }
    .ok (st.insertRow row)

/-- An arbitrary JSON value for `JournalEntry.content`, opaque to the core
except for its Python truthiness (empty dict/list/string, `0`, `false`
and `null` are falsy). -/
inductive JContent where
  | truthy : String → JContent
  | falsy : String → JContent
deriving DecidableEq

/-- Python truthiness of an optional JSON content value. -/
def jtruthy : Option JContent → Bool
  | none => false
  | some (.truthy _) => true
  | some (.falsy _) => false

/-- The `JournalEntry` model from `models.py`. -/
structure JournalEntry where
  id : Nat
  entry_type : String
  content : JContent
  timestamp : Int
deriving DecidableEq

/-- The journal table. -/
structure JournalStore where
  entries : List JournalEntry
  nextId : Nat
deriving DecidableEq

/-- `db.session.add` + commit for a journal row. -/
def JournalStore.insertRow (st : JournalStore) (e : JournalEntry) :
    JournalStore × JournalEntry :=
  let e' := { e with id := st.nextId }
  ({ entries := st.entries ++ [e'], nextId := st.nextId + 1 }, e')

/-- JSON payload of `POST /journal`. -/
structure JournalPayload where
  entry_type : Option (Option String)
  content : Option (Option JContent)
  timestamp : Option (Option Int)
deriving DecidableEq

/-- `POST /journal` (`create_journal_entry` from `app.py`); `now` is the
`datetime.now(timezone.utc)` fallback used when no truthy timestamp is
supplied.  The `getD` defaults are unreachable given the validation
guard. -/
def create_journal_entry (st : JournalStore) (data : JournalPayload) (now : Int) :
    Except String (JournalStore × JournalEntry) :=
  if truthyOpt (dget data.entry_type none) = false
      ∨ jtruthy (dget data.content none) = false then
    .error "entry_type and content are required"
  else
    let row : JournalEntry :=
      { id := 0
        entry_type := (dget data.entry_type none).getD ""
        content := (dget data.content none).getD (.falsy "")
        timestamp := (parse_datetime (dget data.timestamp none)).getD now }
    .ok (st.insertRow row)

/-! ### Helper lemmas -/

/-- Unfolding the sibling-insertion fold of `create_recurring_tasks`:
the `i`-th inserted row receives identifier `nextId + i` and creation
instant `clock + i`. -/
theorem foldl_insertRow_spec (f : Nat → Task) :
    ∀ (n : Nat) (st : Store),
      (List.range n).foldl (fun s i => (s.insertRow (f i)).1) st
        = { tasks := st.tasks ++ (List.range n).map
              (fun i => { f i with id := st.nextId + i, created_at := st.clock + (i : Int) }),
            nextId := st.nextId + n,
            clock := st.clock + (n : Int) } := by
  intro n
  induction n with
  | zero => intro st; simp
  | succ n ih =>
    intro st
    rw [List.range_succ, List.foldl_append, ih st]
    simp only [List.foldl_cons, List.foldl_nil, Store.insertRow, List.range_succ,
      List.map_append, List.map_cons, List.map_nil, List.append_assoc]
    simp only [Store.mk.injEq]
    refine ⟨trivial, by omega, ?_⟩
    push_cast
    ring

/-- When the template is recurring with a recognized cadence and a
non-null due date, `create_recurring_tasks` appends exactly `count`
sibling rows with due dates `d + delta * i`, `i = 1..count`. -/
theorem create_recurring_tasks_expand (st : Store) (tmpl : Task) (c : String)
    (d : Int) (delta : Int) (count : Nat)
    (h1 : tmpl.is_recurring = true)
    (h2 : tmpl.recurrence_type = some c)
    (h3 : c ≠ "")
    (h4 : recurrence_periods c = some (delta, count))
    (h5 : tmpl.due_date = some d) :
    create_recurring_tasks st tmpl
      = { tasks := st.tasks ++ (List.range count).map (fun (i : Nat) =>
            { sibling_row tmpl (d + delta * ((i : Int) + 1)) with
                id := st.nextId + i, created_at := st.clock + (i : Int) }),
          nextId := st.nextId + count,
          clock := st.clock + (count : Int) } := by
  have htr : truthyOpt tmpl.recurrence_type = true := by
    rw [h2]; simpa [truthyOpt] using h3
  unfold create_recurring_tasks
  rw [if_neg (by simp [h1, htr])]
  rw [h2]
  simp only [Option.getD_some]
  rw [h4, h5]
  exact foldl_insertRow_spec (fun i => sibling_row tmpl (d + delta * ((i : Int) + 1))) count st

/-- When the template is not recurring, or its cadence is falsy, or its
cadence is not in the `recurrence_periods` table, `create_recurring_tasks`
is a no-op. -/
theorem create_recurring_tasks_noop (st : Store) (tmpl : Task)
    (h : tmpl.is_recurring = false ∨ truthyOpt tmpl.recurrence_type = false
         ∨ recurrence_periods (tmpl.recurrence_type.getD "") = none) :
    create_recurring_tasks st tmpl = st := by
  unfold create_recurring_tasks
  rcases h with h | h | h
  · rw [if_pos (Or.inl h)]
  · rw [if_pos (Or.inr h)]
  · split
    · rfl
    · rw [h]

/-- The template row as persisted by a successful `create_task` (after the
flush that assigns `id` and `created_at`); abbreviation used to state the
success-path lemmas below. -/
def mk_template (st : Store) (data : TaskPayload) (gid : String) (D : Int) : Task :=
  { id := st.nextId
    title := dget data.title none
    description := dget data.description none
    is_recurring := (dget data.is_recurring (some false)).getD false
    is_completed := some false
    due_date := some D
    start_time := parse_datetime (dget data.start_time none)
    end_time := parse_datetime (dget data.end_time none)
    time_tracked_seconds := some 0
    created_at := st.clock
    recurrence_type := dget data.recurrence_type none
    recurrence_group_id :=
      if (dget data.is_recurring (some false)).getD false then some gid else none }

/-- Successful-path shape of `create_task`: with a truthy title and a
parseable due date, the endpoint flushes one template row and then runs
the recurrence expansion on the post-flush store. -/
theorem create_task_ok_shape (st : Store) (data : TaskPayload) (gid : String) (D : Int)
    (ht : truthyOpt (dget data.title none) = true)
    (hd : dget data.due_date none = some (DateStr.valid D)) :
    create_task st data gid =
      .ok (create_recurring_tasks
            { tasks := st.tasks ++ [mk_template st data gid D],
              nextId := st.nextId + 1, clock := st.clock + 1 }
            (mk_template st data gid D),
           mk_template st data gid D) := by
  unfold create_task
  rw [hd]
  simp only [parse_date]
  rw [if_neg (by simp [ht])]
  simp only [Store.insertRow, mk_template]

/-- Successful recurring creation with a cadence found in the
`recurrence_periods` table: the store receives the template followed by
`count` siblings dated `D + delta * i`, `i = 1..count`, with consecutive
fresh identifiers and creation instants. -/
theorem create_task_expands (st : Store) (data : TaskPayload) (gid : String) (D : Int)
    (c : String) (delta : Int) (count : Nat)
    (ht : truthyOpt (dget data.title none) = true)
    (hd : dget data.due_date none = some (DateStr.valid D))
    (hrec : dget data.is_recurring (some false) = some true)
    (hc : dget data.recurrence_type none = some c)
    (hc' : c ≠ "")
    (hp : recurrence_periods c = some (delta, count)) :
    create_task st data gid =
      .ok ({ tasks := st.tasks ++ mk_template st data gid D ::
               (List.range count).map (fun (i : Nat) =>
                 { sibling_row (mk_template st data gid D) (D + delta * ((i : Int) + 1)) with
                     id := st.nextId + 1 + i, created_at := st.clock + 1 + (i : Int) }),
             nextId := st.nextId + 1 + count,
             clock := st.clock + 1 + (count : Int) },
           mk_template st data gid D) := by
  rw [create_task_ok_shape st data gid D ht hd]
  rw [create_recurring_tasks_expand _ _ c D delta count ?h1 ?h2 hc' hp ?h5]
  case h1 => simp [mk_template, hrec]
  case h2 => simp [mk_template, hc]
  case h5 => rfl
  simp [Store.mk.injEq]

/-- Successful creation without expansion: when the persisted template is
non-recurring, has a falsy cadence, or has a cadence outside the
`recurrence_periods` table, exactly the template row is appended. -/
theorem create_task_noexpand (st : Store) (data : TaskPayload) (gid : String) (D : Int)
    (ht : truthyOpt (dget data.title none) = true)
    (hd : dget data.due_date none = some (DateStr.valid D))
    (hno : (dget data.is_recurring (some false)).getD false = false
         ∨ truthyOpt (dget data.recurrence_type none) = false
         ∨ recurrence_periods ((dget data.recurrence_type none).getD "") = none) :
    create_task st data gid =
      .ok ({ tasks := st.tasks ++ [mk_template st data gid D],
             nextId := st.nextId + 1, clock := st.clock + 1 },
           mk_template st data gid D) := by
  rw [create_task_ok_shape st data gid D ht hd]
  rw [create_recurring_tasks_noop]
  rcases hno with h | h | h
  · exact Or.inl (by simp [mk_template, h])
  · exact Or.inr (Or.inl (by simp [mk_template, h]))
  · exact Or.inr (Or.inr (by simp [mk_template, h]))

/-! ### Claims -/

/-- C1: for every task creation request whose template has recurrence flag
true, cadence `daily` (resp. `weekly`), and due date `D`, the operation
persists the template plus exactly 90 (resp. 12) sibling tasks whose due
dates are `D + 1·i` for `i = 1..90` (resp. `D + 7·i` for `i = 1..12`),
each sibling carrying the template's group identity unchanged, completion
flag false, tracked duration 0, a fresh (not copied) creation instant and
identifier, and all other fields copied from the template. -/
theorem c1_bounded_expansion (st : Store) (data : TaskPayload) (gid : String) (D : Int)
    (delta : Int) (count : Nat)
    (ht : truthyOpt (dget data.title none) = true)
    (hd : dget data.due_date none = some (DateStr.valid D))
    (hrec : dget data.is_recurring (some false) = some true)
    (hcad : (dget data.recurrence_type none = some "daily" ∧ delta = 1 ∧ count = 90)
          ∨ (dget data.recurrence_type none = some "weekly" ∧ delta = 7 ∧ count = 12)) :
    ∃ st2 tmpl sibs,
      create_task st data gid = .ok (st2, tmpl) ∧
      st2.tasks = st.tasks ++ tmpl :: sibs ∧
      tmpl.recurrence_group_id = some gid ∧
      sibs.length = count ∧
      (∀ (i : Nat) (hi : i < sibs.length),
        sibs[i].due_date = some (D + delta * ((i : Int) + 1)) ∧
        sibs[i].recurrence_group_id = tmpl.recurrence_group_id ∧
        sibs[i].is_completed = some false ∧
        sibs[i].time_tracked_seconds = some 0 ∧
        sibs[i].id ≠ tmpl.id ∧
        sibs[i].created_at ≠ tmpl.created_at ∧
        sibs[i].title = tmpl.title ∧
        sibs[i].description = tmpl.description ∧
        sibs[i].is_recurring = tmpl.is_recurring ∧
        sibs[i].recurrence_type = tmpl.recurrence_type ∧
        sibs[i].start_time = tmpl.start_time ∧
        sibs[i].end_time = tmpl.end_time) ∧
      (∀ (i j : Nat) (hi : i < sibs.length) (hj : j < sibs.length), i ≠ j →
        sibs[i].id ≠ sibs[j].id ∧ sibs[i].created_at ≠ sibs[j].created_at) := by
  have hcgen : ∃ c, dget data.recurrence_type none = some c ∧ c ≠ ""
      ∧ recurrence_periods c = some (delta, count) := by
    rcases hcad with ⟨hc, h1, h2⟩ | ⟨hc, h1, h2⟩ <;> subst h1 <;> subst h2
    · exact ⟨"daily", hc, by decide, rfl⟩
    · exact ⟨"weekly", hc, by decide, rfl⟩
  obtain ⟨c, hc, hc', hp⟩ := hcgen
  refine ⟨_, mk_template st data gid D,
    (List.range count).map (fun (i : Nat) =>
      { sibling_row (mk_template st data gid D) (D + delta * ((i : Int) + 1)) with
          id := st.nextId + 1 + i, created_at := st.clock + 1 + (i : Int) }),
    create_task_expands st data gid D c delta count ht hd hrec hc hc' hp,
    rfl, by simp [mk_template, hrec], by simp, ?_, ?_⟩
  · intro i hi
    simp only [List.length_map, List.length_range] at hi
    simp only [List.getElem_map, List.getElem_range]
    refine ⟨?_, ?_, ?_, ?_, by simp only [mk_template]; omega,
      by simp only [mk_template]; omega, ?_, ?_, ?_, ?_, ?_, ?_⟩ <;>
      simp [sibling_row, mk_template]
  · intro i j hi hj hij
    simp only [List.length_map, List.length_range] at hi hj
    simp only [List.getElem_map, List.getElem_range]
    exact ⟨by omega, by omega⟩

/-- C5: a task creation request marked recurring whose cadence lies
outside `{daily, weekly}` (e.g. `monthly`, or absent) is not an error: it
persists exactly one stored record (the template) with its recurrence
flag preserved as given, produces no siblings and raises nothing. -/
theorem c5_unknown_cadence_noop (st : Store) (data : TaskPayload) (gid : String) (D : Int)
    (ht : truthyOpt (dget data.title none) = true)
    (hd : dget data.due_date none = some (DateStr.valid D))
    (hrec : (dget data.is_recurring (some false)).getD false = true)
    (hcad : ∀ s, dget data.recurrence_type none = some s → s ≠ "daily" ∧ s ≠ "weekly") :
    ∃ st2 tmpl,
      create_task st data gid = .ok (st2, tmpl) ∧
      st2.tasks = st.tasks ++ [tmpl] ∧
      tmpl.is_recurring = true ∧
      tmpl.recurrence_type = dget data.recurrence_type none := by
  have hno : truthyOpt (dget data.recurrence_type none) = false
      ∨ recurrence_periods ((dget data.recurrence_type none).getD "") = none := by
    cases hrt : dget data.recurrence_type none with
    | none => exact Or.inl rfl
    | some s =>
      rcases hcad s hrt with ⟨h1, h2⟩
      refine Or.inr ?_
      simp [recurrence_periods, h1, h2]
  refine ⟨_, mk_template st data gid D,
    create_task_noexpand st data gid D ht hd (by tauto), rfl, ?_, rfl⟩
  simp [mk_template, hrec]

/-- C6: a task creation request with recurrence flag false stores exactly
one record and its group identity is absent. -/
theorem c6_nonrecurring_single (st : Store) (data : TaskPayload) (gid : String) (D : Int)
    (ht : truthyOpt (dget data.title none) = true)
    (hd : dget data.due_date none = some (DateStr.valid D))
    (hrec : (dget data.is_recurring (some false)).getD false = false) :
    ∃ st2 tmpl,
      create_task st data gid = .ok (st2, tmpl) ∧
      st2.tasks = st.tasks ++ [tmpl] ∧
      tmpl.recurrence_group_id = none := by
  refine ⟨_, mk_template st data gid D,
    create_task_noexpand st data gid D ht hd (Or.inl hrec), rfl, ?_⟩
  simp [mk_template, hrec]

/-- C9: every task persisted via creation has a non-null group identity
iff its recurrence flag is true; in particular a task created with
recurrence flag true but an unrecognized cadence (never expanded) is still
assigned the fresh group identity, shared with no sibling, so a later
series-from-here delete on it takes the group-predicate branch of
`delete_task` (`series_branch` evaluates true) rather than degrading to
single semantics. -/
theorem c9_group_identity_invariant (st : Store) (data : TaskPayload) (gid : String)
    (D : Int)
    (ht : truthyOpt (dget data.title none) = true)
    (hd : dget data.due_date none = some (DateStr.valid D))
    (hgid : gid ≠ "") :
    ∃ st2 tmpl news,
      create_task st data gid = .ok (st2, tmpl) ∧
      st2.tasks = st.tasks ++ news ∧
      tmpl ∈ news ∧
      (∀ u ∈ news, (u.recurrence_group_id ≠ none ↔ u.is_recurring = true)) ∧
      ((dget data.is_recurring (some false)).getD false = true →
       (∀ s, dget data.recurrence_type none = some s → recurrence_periods s = none) →
         news = [tmpl] ∧ tmpl.recurrence_group_id = some gid ∧
         series_branch tmpl (some "all_future") = true) := by
  by_cases hrec : (dget data.is_recurring (some false)).getD false = true
  case neg =>
    rw [Bool.not_eq_true] at hrec
    refine ⟨_, mk_template st data gid D, [mk_template st data gid D],
      create_task_noexpand st data gid D ht hd (Or.inl hrec), rfl, by simp, ?_, ?_⟩
    · intro u hu
      rw [List.mem_singleton] at hu
      subst hu
      simp [mk_template, hrec]
    · intro h
      rw [h] at hrec
      cases hrec
  case pos =>
    have hrec' : dget data.is_recurring (some false) = some true := by
      revert hrec
      cases dget data.is_recurring (some false) with
      | none => intro hrec; cases hrec
      | some b => intro hrec; simp only [Option.getD_some] at hrec; rw [hrec]
    have htmplg : (mk_template st data gid D).recurrence_group_id = some gid := by
      simp [mk_template, hrec]
    have htmplb : series_branch (mk_template st data gid D) (some "all_future") = true := by
      simp [series_branch, htmplg, truthyOpt, hgid]
    have htmplr : (mk_template st data gid D).is_recurring = true := by
      simp [mk_template, hrec]
    cases hrt : dget data.recurrence_type none with
    | none =>
      refine ⟨_, mk_template st data gid D, [mk_template st data gid D],
        create_task_noexpand st data gid D ht hd
          (Or.inr (Or.inl (by rw [hrt]; rfl))), rfl, by simp, ?_, ?_⟩
      · intro u hu
        rw [List.mem_singleton] at hu
        subst hu
        simp [htmplg, htmplr]
      · intro _ _
        exact ⟨rfl, htmplg, htmplb⟩
    | some c =>
      by_cases hce : c = ""
      · refine ⟨_, mk_template st data gid D, [mk_template st data gid D],
          create_task_noexpand st data gid D ht hd
            (Or.inr (Or.inl (by rw [hrt, hce]; rfl))), rfl, by simp, ?_, ?_⟩
        · intro u hu
          rw [List.mem_singleton] at hu
          subst hu
          simp [htmplg, htmplr]
        · intro _ _
          exact ⟨rfl, htmplg, htmplb⟩
      · cases hp : recurrence_periods c with
        | none =>
          refine ⟨_, mk_template st data gid D, [mk_template st data gid D],
            create_task_noexpand st data gid D ht hd
              (Or.inr (Or.inr (by rw [hrt]; simpa using hp))), rfl, by simp, ?_, ?_⟩
          · intro u hu
            rw [List.mem_singleton] at hu
            subst hu
            simp [htmplg, htmplr]
          · intro _ _
            exact ⟨rfl, htmplg, htmplb⟩
        | some pr =>
          obtain ⟨delta, count⟩ := pr
          refine ⟨_, mk_template st data gid D,
            mk_template st data gid D ::
              (List.range count).map (fun (i : Nat) =>
                { sibling_row (mk_template st data gid D) (D + delta * ((i : Int) + 1)) with
                    id := st.nextId + 1 + i, created_at := st.clock + 1 + (i : Int) }),
            create_task_expands st data gid D c delta count ht hd hrec' hrt hce hp,
            rfl, by simp, ?_, ?_⟩
          · intro u hu
            rcases List.mem_cons.mp hu with hu | hu
            · subst hu
              simp [htmplg, htmplr]
            · obtain ⟨i, _, hiu⟩ := List.mem_map.mp hu
              subst hiu
              simp [sibling_row, htmplg, htmplr]
          · intro _ hnone
            rw [hnone c rfl] at hp
            cases hp

/-- Concrete fixture for C4: a creation request with a non-empty title,
recurrence flag false and no due date supplied. -/
def c4_payload : TaskPayload :=
  { title := some (some "buy milk"), description := none,
    is_recurring := some (some false), recurrence_type := none,
    due_date := none, start_time := none, end_time := none }

/-- Concrete fixture for C4: a second such request, with the title also
missing. -/
def c4_payload2 : TaskPayload :=
  { title := none, description := none,
    is_recurring := some (some false), recurrence_type := none,
    due_date := none, start_time := none, end_time := none }

/-- Concrete fixture for C4: an empty task store. -/
def c4_store : Store := { tasks := [], nextId := 1, clock := 100 }

/-- C4 counterexample: the claim asserts that a creation request with a
non-empty title, recurrence flag false and no due date supplied succeeds
and persists the task with an absent due date; on the code it is rejected
with a validation error instead. -/
theorem c4_due_date_optional_counterexample :
    create_task c4_store c4_payload "g" = .error "Title and due_date are required" := rfl

/-- C4 amended: a task due date is not optional — every task creation
request without a due date supplied (key absent or explicitly null) is
rejected with a validation error, for recurring and non-recurring tasks
alike, and nothing is persisted. -/
theorem c4_due_date_required (st : Store) (data : TaskPayload) (gid : String)
    (h : dget data.due_date none = none) :
    create_task st data gid = .error "Title and due_date are required" := by
  unfold create_task
  rw [h]
  simp [parse_date]

/-- C4 amended, witness at a concrete input. -/
theorem c4_due_date_required_witness :
    create_task c4_store c4_payload2 "g" = .error "Title and due_date are required" :=
  c4_due_date_required c4_store c4_payload2 "g" rfl

/-- `due_ge` against a non-null threshold holds exactly on non-null dates
at or past the threshold. -/
theorem due_ge_eq_true_iff (o : Option Int) (d : Int) :
    due_ge o (some d) = true ↔ ∃ du, o = some du ∧ d ≤ du := by
  cases o with
  | none => simp [due_ge]
  | some a => simp [due_ge]

/-- C2: deleting with scope series-from-here (`apply_to=all_future`) on an
existing task `T`: if `T` has no group identity, exactly `T` is deleted
(single semantics); otherwise exactly the records sharing `T`'s group
identity whose due date is `≥ T`'s due date are deleted (including `T`
itself) and every other record — in particular every record of the group
with an earlier due date — is preserved.  (`T.recurrence_group_id ≠
some ""` holds for every task the API creates, group identities being
non-empty `uuid4` strings.) -/
theorem c2_series_from_here_delete (st : Store) (tid : Nat) (T : Task)
    (hfind : st.tasks.find? (fun t => t.id == tid) = some T)
    (hnodup : (st.tasks.map Task.id).Nodup)
    (hg' : T.recurrence_group_id ≠ some "") :
    (T.recurrence_group_id = none →
      ∃ st', delete_task st tid (some "all_future") = .ok st' ∧
        ∀ u, u ∈ st'.tasks ↔ (u ∈ st.tasks ∧ u ≠ T)) ∧
    (∀ g d, T.recurrence_group_id = some g → T.due_date = some d →
      ∃ st', delete_task st tid (some "all_future") = .ok st' ∧
        T ∉ st'.tasks ∧
        (∀ u, u ∈ st'.tasks ↔
          (u ∈ st.tasks ∧ ¬(u.recurrence_group_id = some g ∧
            ∃ du, u.due_date = some du ∧ d ≤ du)))) := by
  have hTid : T.id = tid := by simpa using List.find?_some hfind
  have hTmem : T ∈ st.tasks := List.mem_of_find?_eq_some hfind
  constructor
  · intro hgnone
    have hbr : series_branch T (some "all_future") = false := by
      simp [series_branch, hgnone, truthyOpt]
    have heq : delete_task st tid (some "all_future")
        = .ok { st with tasks := st.tasks.filter (fun t => !(t.id == tid)) } := by
      unfold delete_task
      rw [hfind]
      exact if_neg (by simp [hbr])
    refine ⟨_, heq, ?_⟩
    intro u
    simp only [List.mem_filter, Bool.not_eq_true', beq_eq_false_iff_ne, ne_eq]
    constructor
    · rintro ⟨hu, hne⟩
      exact ⟨hu, fun he => hne (by rw [he, hTid])⟩
    · rintro ⟨hu, hne⟩
      refine ⟨hu, fun he => hne ?_⟩
      exact List.inj_on_of_nodup_map hnodup hu hTmem (by rw [he, hTid])
  · intro g d hg hd
    have hgne : g ≠ "" := fun h => hg' (by rw [hg, h])
    have hbr : series_branch T (some "all_future") = true := by
      simp [series_branch, hg, truthyOpt, hgne]
    have heq : delete_task st tid (some "all_future")
        = .ok { st with tasks :=
            st.tasks.filter (fun t =>
              !((t.recurrence_group_id == T.recurrence_group_id)
                && due_ge t.due_date T.due_date)) } := by
      unfold delete_task
      rw [hfind]
      exact if_pos (by simp [hbr])
    refine ⟨_, heq, ?_, ?_⟩
    · simp [List.mem_filter, hg, hd, due_ge, hTmem]
    · intro u
      simp only [List.mem_filter]
      rw [hg, hd]
      constructor
      · rintro ⟨hu, hp⟩
        refine ⟨hu, ?_⟩
        rintro ⟨hug, du, hdu1, hdu2⟩
        rw [hug, hdu1] at hp
        simp [due_ge, hdu2] at hp
      · rintro ⟨hu, hnp⟩
        refine ⟨hu, ?_⟩
        by_cases h1 : u.recurrence_group_id = some g
        · have h2 : due_ge u.due_date (some d) = false := by
            cases hdu : u.due_date with
            | none => rfl
            | some a =>
              have hna : ¬(d ≤ a) := fun hle => hnp ⟨h1, a, hdu, hle⟩
              simp [due_ge, hna]
          simp [h1, h2]
        · simp [h1]

/-- The task produced by a successful `update_task` on stored task `T`:
exactly the four `data.get`-resolved fields are rebound. -/
def updated_task (T : Task) (data : TaskUpdatePayload) : Task :=
  { T with
    title := dget data.title T.title
    description := dget data.description T.description
    is_completed := dget data.is_completed T.is_completed
    time_tracked_seconds := dget data.time_tracked_seconds T.time_tracked_seconds }

/-- Success shape of `update_task` when the task exists and the resolved
title is non-null, so the commit's `Task.title` NOT NULL check passes. -/
theorem update_task_ok (st : Store) (tid : Nat) (data : TaskUpdatePayload) (T : Task)
    (hfind : st.tasks.find? (fun t => t.id == tid) = some T)
    (htitle : dget data.title T.title ≠ none) :
    update_task st tid data
      = .ok ({ st with tasks :=
                 st.tasks.map (fun u => if u.id == tid then updated_task T data else u) },
             updated_task T data) := by
  unfold update_task updated_task
  rw [hfind]
  exact if_neg htitle

/-- `update_task` with a resolved null title: the commit violates the
`Task.title` NOT NULL constraint and nothing is persisted. -/
theorem update_task_title_null (st : Store) (tid : Nat) (data : TaskUpdatePayload) (T : Task)
    (hfind : st.tasks.find? (fun t => t.id == tid) = some T)
    (htitle : dget data.title T.title = none) :
    update_task st tid data
      = .error "IntegrityError: NOT NULL constraint failed: task.title" := by
  unfold update_task
  rw [hfind]
  exact if_pos htitle

/-- C8: a task update may change only the title, description, completion
flag and tracked duration: every update that persists (and, the resolved
title being non-null, the update does persist) leaves the task's due
date, recurrence flag, cadence, group identity, start/end instants,
creation instant and identifier unchanged. -/
theorem c8_update_task_frame (st : Store) (tid : Nat) (data : TaskUpdatePayload) (T : Task)
    (hfind : st.tasks.find? (fun t => t.id == tid) = some T) :
    (∀ st' T', update_task st tid data = .ok (st', T') →
      T'.due_date = T.due_date ∧
      T'.is_recurring = T.is_recurring ∧
      T'.recurrence_type = T.recurrence_type ∧
      T'.recurrence_group_id = T.recurrence_group_id ∧
      T'.start_time = T.start_time ∧
      T'.end_time = T.end_time ∧
      T'.created_at = T.created_at ∧
      T'.id = T.id) ∧
    (dget data.title T.title ≠ none →
      ∃ st' T', update_task st tid data = .ok (st', T')) := by
  constructor
  · intro st' T' heq
    by_cases htitle : dget data.title T.title = none
    · rw [update_task_title_null st tid data T hfind htitle] at heq
      cases heq
    · rw [update_task_ok st tid data T hfind htitle] at heq
      simp only [Except.ok.injEq, Prod.mk.injEq] at heq
      obtain ⟨-, h2⟩ := heq
      subst h2
      exact ⟨rfl, rfl, rfl, rfl, rfl, rfl, rfl, rfl⟩
  · intro htitle
    exact ⟨_, _, update_task_ok st tid data T hfind htitle⟩

/-- C10 amended: `update_task` treats a payload key present with an
explicit null as a supplied value (no null-vs-omitted distinction): for
the nullable columns description, is_completed and time_tracked_seconds
the stored field is overwritten with null; for title, whose column is
declared NOT NULL, the attempted null assignment makes the commit raise
IntegrityError, nothing is persisted, and the stored title is left
unchanged. -/
theorem c10_task_update_null_overwrites (st : Store) (tid : Nat)
    (data : TaskUpdatePayload) (T : Task)
    (hfind : st.tasks.find? (fun t => t.id == tid) = some T) :
    (dget data.title T.title ≠ none →
      ∃ st' T', update_task st tid data = .ok (st', T') ∧
        (data.description = some none → T'.description = none) ∧
        (data.is_completed = some none → T'.is_completed = none) ∧
        (data.time_tracked_seconds = some none → T'.time_tracked_seconds = none)) ∧
    (data.title = some none →
      update_task st tid data
        = .error "IntegrityError: NOT NULL constraint failed: task.title") := by
  constructor
  · intro htitle
    refine ⟨_, updated_task T data, update_task_ok st tid data T hfind htitle,
      ?_, ?_, ?_⟩ <;> (intro h; simp [updated_task, dget, h])
  · intro h
    exact update_task_title_null st tid data T hfind (by rw [h]; rfl)

/-- C7: every creation request missing a required field or failing its
shape check — task creation without a truthy title or without a parseable
due date (absent, null, empty, or a non-empty unparseable string), event
creation without title or start time, journal creation without entry type
or content — is surfaced to the caller as an error; the endpoints return
the new store only on success, so nothing is persisted in these cases. -/
theorem c7_validation_rejections :
    (∀ (st : Store) (data : TaskPayload) (gid : String),
      (truthyOpt (dget data.title none) = false
        ∨ dget data.due_date none = none
        ∨ dget data.due_date none = some DateStr.emptyStr
        ∨ dget data.due_date none = some DateStr.invalid) →
      ∃ msg, create_task st data gid = .error msg) ∧
    (∀ (st : EventStore) (data : EventPayload),
      (truthyOpt (dget data.title none) = false ∨ dget data.start_time none = none) →
      ∃ msg, create_event st data = .error msg) ∧
    (∀ (st : JournalStore) (data : JournalPayload) (now : Int),
      (truthyOpt (dget data.entry_type none) = false
        ∨ jtruthy (dget data.content none) = false) →
      ∃ msg, create_journal_entry st data now = .error msg) := by
  refine ⟨?_, ?_, ?_⟩
  · intro st data gid h
    unfold create_task
    rcases h with h | h | h | h
    · cases hpd : parse_date (dget data.due_date none) with
      | error e => exact ⟨e, rfl⟩
      | ok dd => exact ⟨_, if_pos (Or.inl h)⟩
    · exact ⟨_, by rw [h]; exact if_pos (Or.inr rfl)⟩
    · exact ⟨_, by rw [h]; exact if_pos (Or.inr rfl)⟩
    · exact ⟨_, by rw [h]; rfl⟩
  · intro st data h
    exact ⟨_, by unfold create_event; rw [if_pos h]⟩
  · intro st data now h
    exact ⟨_, by unfold create_journal_entry; rw [if_pos h]⟩

/-! ### Concrete witnesses -/

/-- Concrete fixture for the C1 witness. -/
def c1_payload : TaskPayload :=
  { title := some (some "water plants"), description := some (some "daily chore"),
    is_recurring := some (some true), recurrence_type := some (some "daily"),
    due_date := some (some (DateStr.valid 10)), start_time := none, end_time := none }

/-- Concrete fixture for the C1 witness: an empty task store. -/
def c1_store : Store := { tasks := [], nextId := 1, clock := 0 }

/-- C1 witness: the claim applied to a concrete daily-recurring request. -/
theorem c1_bounded_expansion_witness :
    ∃ st2 tmpl sibs,
      create_task c1_store c1_payload "group-1" = .ok (st2, tmpl) ∧
      st2.tasks = c1_store.tasks ++ tmpl :: sibs ∧
      tmpl.recurrence_group_id = some "group-1" ∧
      sibs.length = 90 := by
  obtain ⟨st2, tmpl, sibs, h1, h2, h3, h4, -, -⟩ :=
    c1_bounded_expansion c1_store c1_payload "group-1" 10 1 90 (by decide) rfl rfl
      (Or.inl ⟨rfl, rfl, rfl⟩)
  exact ⟨st2, tmpl, sibs, h1, h2, h3, h4⟩

/-- Concrete fixture for the C2 witness: the `i`-th member of a series
with group `G` and due date `d`. -/
def c2_task (i : Nat) (d : Int) : Task :=
  { id := i, title := some "t", description := none, is_recurring := true,
    is_completed := some false, due_date := some d, start_time := none,
    end_time := none, time_tracked_seconds := some 0, created_at := 0,
    recurrence_type := some "daily", recurrence_group_id := some "G" }

/-- Concrete fixture for the C2 witness: a three-member series. -/
def c2_store : Store :=
  { tasks := [c2_task 1 0, c2_task 2 5, c2_task 3 9], nextId := 4, clock := 3 }

/-- C2 witness: series-from-here delete on the middle member removes it
and keeps the earlier-dated member. -/
theorem c2_series_from_here_delete_witness :
    ∃ st', delete_task c2_store 2 (some "all_future") = .ok st' ∧
      c2_task 2 5 ∉ st'.tasks ∧ c2_task 1 0 ∈ st'.tasks := by
  obtain ⟨st', heq, hnm, hiff⟩ :=
    (c2_series_from_here_delete c2_store 2 (c2_task 2 5) rfl (by decide) (by decide)).2
      "G" 5 rfl rfl
  refine ⟨st', heq, hnm, ?_⟩
  rw [hiff]
  refine ⟨by simp [c2_store], ?_⟩
  rintro ⟨-, du, hdu, hle⟩
  simp [c2_task] at hdu
  omega

/-- Concrete fixture for the C5 witness. -/
def c5_payload : TaskPayload :=
  { title := some (some "stretch"), description := none,
    is_recurring := some (some true), recurrence_type := some (some "monthly"),
    due_date := some (some (DateStr.valid 3)), start_time := none, end_time := none }

/-- Concrete fixture for the C5 witness. -/
def c5_store : Store := { tasks := [], nextId := 1, clock := 0 }

/-- C5 witness: a recurring request with cadence `monthly` persists the
template alone. -/
theorem c5_unknown_cadence_noop_witness :
    ∃ st2 tmpl, create_task c5_store c5_payload "g5" = .ok (st2, tmpl) ∧
      st2.tasks = c5_store.tasks ++ [tmpl] ∧ tmpl.is_recurring = true ∧
      tmpl.recurrence_type = dget c5_payload.recurrence_type none :=
  c5_unknown_cadence_noop c5_store c5_payload "g5" 3 (by decide) rfl rfl
    (by intro s hs; cases hs; exact ⟨by decide, by decide⟩)

/-- Concrete fixture for the C6 witness. -/
def c6_payload : TaskPayload :=
  { title := some (some "tidy desk"), description := none,
    is_recurring := some (some false), recurrence_type := none,
    due_date := some (some (DateStr.valid 7)), start_time := none, end_time := none }

/-- Concrete fixture for the C6 witness. -/
def c6_store : Store := { tasks := [], nextId := 1, clock := 0 }

/-- C6 witness: a non-recurring request stores one record without group
identity. -/
theorem c6_nonrecurring_single_witness :
    ∃ st2 tmpl, create_task c6_store c6_payload "g6" = .ok (st2, tmpl) ∧
      st2.tasks = c6_store.tasks ++ [tmpl] ∧ tmpl.recurrence_group_id = none :=
  c6_nonrecurring_single c6_store c6_payload "g6" 7 (by decide) rfl rfl

/-- Concrete fixtures for the C7 witness. -/
def c7_store : Store := { tasks := [], nextId := 1, clock := 0 }

/-- Concrete fixture for the C7 witness: an unparseable due-date string. -/
def c7_task_payload : TaskPayload :=
  { title := some (some "has title"), description := none, is_recurring := none,
    recurrence_type := none, due_date := some (some DateStr.invalid),
    start_time := none, end_time := none }

/-- Concrete fixture for the C7 witness: an event with a null start. -/
def c7_event_payload : EventPayload :=
  { title := some (some "mtg"), description := none,
    start_time := some none, end_time := none }

/-- Concrete fixture for the C7 witness: empty event store. -/
def c7_event_store : EventStore := { events := [], nextId := 1, clock := 0 }

/-- Concrete fixture for the C7 witness: a journal entry with falsy
content. -/
def c7_journal_payload : JournalPayload :=
  { entry_type := some (some "meal"),
    content := some (some (JContent.falsy "empty dict")), timestamp := none }

/-- Concrete fixture for the C7 witness: empty journal store. -/
def c7_journal_store : JournalStore := { entries := [], nextId := 1 }

/-- C7 witness: concrete invalid creation requests for all three record
kinds are rejected. -/
theorem c7_validation_rejections_witness :
    (∃ msg, create_task c7_store c7_task_payload "g" = .error msg) ∧
    (∃ msg, create_event c7_event_store c7_event_payload = .error msg) ∧
    (∃ msg, create_journal_entry c7_journal_store c7_journal_payload 50 = .error msg) :=
  ⟨c7_validation_rejections.1 c7_store c7_task_payload "g" (Or.inr (Or.inr (Or.inr rfl))),
   c7_validation_rejections.2.1 c7_event_store c7_event_payload (Or.inr rfl),
   c7_validation_rejections.2.2 c7_journal_store c7_journal_payload 50 (Or.inr rfl)⟩

/-- Concrete fixture for the C8 witness. -/
def c8_task : Task :=
  { id := 4, title := some "old", description := none, is_recurring := false,
    is_completed := some false, due_date := some 11, start_time := none,
    end_time := none, time_tracked_seconds := some 0, created_at := 2,
    recurrence_type := none, recurrence_group_id := none }

/-- Concrete fixture for the C8 witness. -/
def c8_store : Store := { tasks := [c8_task], nextId := 5, clock := 3 }

/-- Concrete fixture for the C8 witness: a full mutable-field update. -/
def c8_payload : TaskUpdatePayload :=
  { title := some (some "new"), description := some (some "d"),
    is_completed := some (some true), time_tracked_seconds := some (some 60) }

/-- C8 witness: the frame conditions at a concrete update. -/
theorem c8_update_task_frame_witness :
    ∃ st' T', update_task c8_store 4 c8_payload = .ok (st', T') ∧
      T'.due_date = c8_task.due_date ∧
      T'.is_recurring = c8_task.is_recurring ∧
      T'.recurrence_type = c8_task.recurrence_type ∧
      T'.recurrence_group_id = c8_task.recurrence_group_id ∧
      T'.start_time = c8_task.start_time ∧
      T'.end_time = c8_task.end_time ∧
      T'.created_at = c8_task.created_at ∧
      T'.id = c8_task.id := by
  obtain ⟨hframe, hok⟩ := c8_update_task_frame c8_store 4 c8_payload c8_task rfl
  obtain ⟨st', T', heq⟩ := hok (by decide)
  exact ⟨st', T', heq, hframe st' T' heq⟩

/-- Concrete fixture for the C9 witness: recurring with unknown cadence. -/
def c9_payload : TaskPayload :=
  { title := some (some "log weight"), description := none,
    is_recurring := some (some true), recurrence_type := some (some "monthly"),
    due_date := some (some (DateStr.valid 2)), start_time := none, end_time := none }

/-- Concrete fixture for the C9 witness. -/
def c9_store : Store := { tasks := [], nextId := 1, clock := 0 }

/-- C9 witness: the unknown-cadence recurring template keeps a fresh group
identity and a later series-from-here delete takes the group branch. -/
theorem c9_group_identity_invariant_witness :
    ∃ st2 tmpl news,
      create_task c9_store c9_payload "g9" = .ok (st2, tmpl) ∧
      news = [tmpl] ∧ tmpl.recurrence_group_id = some "g9" ∧
      series_branch tmpl (some "all_future") = true := by
  obtain ⟨st2, tmpl, news, h1, -, -, -, h5⟩ :=
    c9_group_identity_invariant c9_store c9_payload "g9" 2 (by decide) rfl (by decide)
  obtain ⟨h6, h7, h8⟩ := h5 rfl (by intro s hs; cases hs; decide)
  exact ⟨st2, tmpl, news, h1, h6, h7, h8⟩

/-- Concrete fixture for the C10 witness. -/
def c10_task : Task :=
  { id := 7, title := some "keep", description := some "text",
    is_recurring := false, is_completed := some true, due_date := some 4,
    start_time := none, end_time := none, time_tracked_seconds := some 300,
    created_at := 1, recurrence_type := none, recurrence_group_id := none }

/-- Concrete fixture for the C10 witness. -/
def c10_store : Store := { tasks := [c10_task], nextId := 8, clock := 2 }

/-- Concrete fixture for the C10 witness: title key absent, explicit
nulls on the three nullable mutable fields. -/
def c10_payload : TaskUpdatePayload :=
  { title := none, description := some none,
    is_completed := some none, time_tracked_seconds := some none }

/-- Concrete fixture for C10: an update carrying an explicit null
title. -/
def c10_title_null_payload : TaskUpdatePayload :=
  { title := some none, description := none,
    is_completed := none, time_tracked_seconds := none }

/-- C10 counterexample: the claim asserts that an explicit null title
overwrites the stored title with null; on the code the commit violates
the `Task.title` NOT NULL constraint instead — the request fails and
nothing is persisted, so the stored title is left unchanged. -/
theorem c10_null_title_counterexample :
    update_task c10_store 7 c10_title_null_payload
      = .error "IntegrityError: NOT NULL constraint failed: task.title" := rfl

/-- C10 amended, witness: explicit nulls overwrite the three nullable
mutable fields, and an explicit null title makes the update fail. -/
theorem c10_task_update_null_overwrites_witness :
    (∃ st' T', update_task c10_store 7 c10_payload = .ok (st', T') ∧
      T'.description = none ∧ T'.is_completed = none ∧
      T'.time_tracked_seconds = none) ∧
    update_task c10_store 7 c10_title_null_payload
      = .error "IntegrityError: NOT NULL constraint failed: task.title" := by
  constructor
  · obtain ⟨h1, -⟩ :=
      c10_task_update_null_overwrites c10_store 7 c10_payload c10_task rfl
    obtain ⟨st', T', heq, h2, h3, h4⟩ := h1 (by decide)
    exact ⟨st', T', heq, h2 rfl, h3 rfl, h4 rfl⟩
  · exact (c10_task_update_null_overwrites c10_store 7 c10_title_null_payload
      c10_task rfl).2 rfl

end Planner
